import Mathlib

/-!
Shallow embedding of `custom_components/tuya_ble/select.py`:
the static select-mapping table, the mapping resolver
(`get_mapping_by_device`), the option adapter (`current_option`,
`select_option`) and the setup registrar (`async_setup_entry`),
together with theorems about them.

Python dictionaries appearing as static literals are embedded as
association lists; `dict.get` is embedded as first-match lookup
(the literal tables have pairwise-distinct keys, so this agrees with
dictionary semantics).  Machine integers are embedded as `Int`
(datapoint payloads) and `Nat` (datapoint ids, list indices).
-/

/-- Entity categories of the host platform used by the table
(`homeassistant.helpers.entity.EntityCategory`). -/
inductive EntityCategory where
  | CONFIG
  | DIAGNOSTIC
deriving DecidableEq, Repr

/-- Datapoint type tags (`TuyaBLEDataPointType` from the device driver);
only `DT_ENUM` is used by this module. -/
inductive TuyaBLEDataPointType where
  | DT_RAW
  | DT_BOOL
  | DT_VALUE
  | DT_STRING
  | DT_ENUM
  | DT_BITMAP
deriving DecidableEq, Repr

/-- Temperature unit string `homeassistant.const.UnitOfTemperature.CELSIUS`. -/
def UnitOfTemperature_CELSIUS : String := "°C"

/-- Temperature unit string `homeassistant.const.UnitOfTemperature.FAHRENHEIT`. -/
def UnitOfTemperature_FAHRENHEIT : String := "°F"

/-- Modelled from the spec: the fingerbot mode option string
`FINGERBOT_MODE_PUSH` imported from this repository's `const.py`, which is
not under `src/`; per the spec's invariant an option list holds unique
strings, and the conventional value of this constant is "push". -/
def FINGERBOT_MODE_PUSH : String := "push"

/-- Modelled from the spec: the fingerbot mode option string
`FINGERBOT_MODE_SWITCH` imported from this repository's `const.py`, which is
not under `src/`; per the spec's invariant an option list holds unique
strings, and the conventional value of this constant is "switch". -/
def FINGERBOT_MODE_SWITCH : String := "switch"

/-- The fields of `homeassistant.components.select.SelectEntityDescription`
that this module reads or sets. -/
structure SelectEntityDescription where
  key : String
  options : List String := []
  entity_category : Option EntityCategory := none
  icon : Option String := none
  entity_registry_enabled_default : Bool := true
deriving DecidableEq, Repr

/-- Binding of one datapoint id to a select entity description
(`TuyaBLESelectMapping` dataclass). -/
structure TuyaBLESelectMapping where
  dp_id : Nat
  description : SelectEntityDescription
  force_add : Bool := true
  dp_type : Option TuyaBLEDataPointType := none
deriving DecidableEq, Repr

/-- The `TemperatureUnitDescription` dataclass: a `SelectEntityDescription`
with fixed key, icon and entity category. -/
def TemperatureUnitDescription (options : List String)
    (entity_registry_enabled_default : Bool) : SelectEntityDescription :=
  { key := "temperature_unit"
    icon := some "mdi:thermometer"
    entity_category := some EntityCategory.CONFIG
    options := options
    entity_registry_enabled_default := entity_registry_enabled_default }

/-- The `TuyaBLEFingerbotModeMapping` dataclass: a `TuyaBLESelectMapping`
whose description defaults to the fingerbot mode select. -/
def TuyaBLEFingerbotModeMapping (dp_id : Nat) : TuyaBLESelectMapping :=
  { dp_id := dp_id
    description :=
      { key := "fingerbot_mode"
        entity_category := some EntityCategory.CONFIG
        options := [FINGERBOT_MODE_PUSH, FINGERBOT_MODE_SWITCH] } }

/-- Category entry of the table (`TuyaBLECategorySelectMapping` dataclass):
an optional product dictionary and an optional category-default list. -/
structure TuyaBLECategorySelectMapping where
  products : Option (List (String × List TuyaBLESelectMapping)) := none
  mapping : Option (List TuyaBLESelectMapping) := none
deriving DecidableEq, Repr

/-- Embedding of Python `dict.get key` on a dictionary literal represented
as an association list: the value at the first matching key, else `none`. -/
def dictGet {α : Type} (l : List (String × α)) (key : String) : Option α :=
  match l with
  | [] => none
  | (k, v) :: rest => if key = k then some v else dictGet rest key

/-- The static `mapping` table of `select.py`, keyed by device category.
The `dict.fromkeys([k1, k2, ...], v)` constructions in the `szjqr`
product dictionary are expanded to one entry per key. -/
def mapping : List (String × TuyaBLECategorySelectMapping) :=
  [ ("co2bj",
     { products := some
        [ ("59s19z5m",
           [ { dp_id := 101
               description := TemperatureUnitDescription
                 [UnitOfTemperature_CELSIUS, UnitOfTemperature_FAHRENHEIT]
                 true } ]) ] }),
    ("ms",
     { products := some
        [ ("ludzroix",
           [ { dp_id := 31
               description :=
                 { key := "beep_volume"
                   options := ["mute", "low", "normal", "high"]
                   entity_category := some EntityCategory.CONFIG } } ]) ] }),
    ("szjqr",
     { products := some
        [ ("3yqdo5yt", [TuyaBLEFingerbotModeMapping 2]),
          ("xhf790if", [TuyaBLEFingerbotModeMapping 2]),
          ("blliqpsj", [TuyaBLEFingerbotModeMapping 8]),
          ("yiihr7zh", [TuyaBLEFingerbotModeMapping 8]),
          ("ltak7e1p", [TuyaBLEFingerbotModeMapping 8]),
          ("y6kttvd6", [TuyaBLEFingerbotModeMapping 8]),
          ("yrnk7mnn", [TuyaBLEFingerbotModeMapping 8]) ] }),
    ("wsdcg",
     { products := some
        [ ("ojzlzzsw",
           [ { dp_id := 9
               description := TemperatureUnitDescription
                 [UnitOfTemperature_CELSIUS, UnitOfTemperature_FAHRENHEIT]
                 false } ]) ] }),
    ("sfkzq",
     { products := some
        [ ("1fcnd8xk",
           [ { dp_id := 10
               description :=
                 { key := "beep_volume"
                   options := ["cancel", "24h", "48h", "72h"]
                   entity_category := some EntityCategory.CONFIG } } ]) ] }) ]

/-- The mapping resolver `get_mapping_by_device`, as a function of the
device's `category` and `product_id` strings.  Mirrors the source exactly:
the category-default list is consulted only inside the branch where the
category entry's `products` dictionary is present. -/
def get_mapping_by_device (category product_id : String) :
    List TuyaBLESelectMapping :=
  match dictGet mapping category with
  | some category_entry =>
    match category_entry.products with
    | some products =>
      match dictGet products product_id with
      | some product_mapping => product_mapping
      | none =>
        match category_entry.mapping with
        | some category_mapping => category_mapping
        | none => []
    | none => []
  | none => []

/-- Modelled from the spec: a datapoint of the device driver's keyed
collection (driver code is not under `src/`): "an opaque key-value cell
with an integer payload", carrying its id and a type tag. -/
structure TuyaBLEDataPoint where
  id : Nat
  dp_type : TuyaBLEDataPointType
  value : Int
deriving DecidableEq, Repr

/-- Modelled from the spec: the device's keyed collection of datapoints,
"a keyed collection of datapoints supporting get(id), has_id(id, type),
and get_or_create(id, type, default)". -/
abbrev Datapoints := List TuyaBLEDataPoint

/-- Modelled from the spec: `datapoints[id]` / `get(id)` — the datapoint
with the given id when present, else none (the absent case reads as a
falsy value in the source's `if datapoint:` checks). -/
def datapoints_get (dps : Datapoints) (dp_id : Nat) : Option TuyaBLEDataPoint :=
  dps.find? (fun dp => dp.id == dp_id)

/-- Modelled from the spec: `has_id(id, type)` — whether the collection
reports a datapoint with the given id, and with the given type when one
is specified. -/
def datapoints_has_id (dps : Datapoints) (dp_id : Nat)
    (dp_type : Option TuyaBLEDataPointType) : Bool :=
  dps.any (fun dp =>
    dp.id == dp_id && (dp_type == none || dp_type == some dp.dp_type))

/-- Modelled from the spec: `get_or_create(id, type, default)` — return the
existing datapoint with the given id, or create (and return) one with the
given type and default value; always yields a datapoint. -/
def datapoints_get_or_create (dps : Datapoints) (dp_id : Nat)
    (dp_type : TuyaBLEDataPointType) (default : Int) :
    Datapoints × TuyaBLEDataPoint :=
  match datapoints_get dps dp_id with
  | some dp => (dps, dp)
  | none => (dps ++ [⟨dp_id, dp_type, default⟩], ⟨dp_id, dp_type, default⟩)

/-- One effect issued by the adapter towards the device driver: the
asynchronous `set_value(int)` call scheduled on a datapoint. -/
inductive DPWrite where
  | setValue (dp_id : Nat) (value : Int)
deriving DecidableEq, Repr

/-- The adapter read `TuyaBLESelect.current_option`, as a function of the
device's datapoint collection and the adapter's state (its bound
datapoint id and option list).  The result distinguishes the three source
outcomes: no datapoint (`none`), an option string looked up at the raw
value (`Sum.inl`), and the raw integer value returned unconverted in the
out-of-range branch (`Sum.inr`). -/
def current_option (dps : Datapoints) (options : List String)
    (dp_id : Nat) : Option (String ⊕ Int) :=
  match datapoints_get dps dp_id with
  | some datapoint =>
    if h : 0 ≤ datapoint.value ∧ datapoint.value < (options.length : Int) then
      some (Sum.inl (options.get ⟨datapoint.value.toNat, by omega⟩))
    else
      some (Sum.inr datapoint.value)
  | none => none

/-- The adapter write `TuyaBLESelect.select_option`, as a function of the
device's datapoint collection and the adapter's state.  Returns the
collection after the `get_or_create` call together with the list of
scheduled `set_value` writes. -/
def select_option (dps : Datapoints) (options : List String)
    (dp_id : Nat) (value : String) : Datapoints × List DPWrite :=
  if value ∈ options then
    let int_value : Int := options.indexOf value
    let r := datapoints_get_or_create dps dp_id
      TuyaBLEDataPointType.DT_ENUM int_value
    (r.1, [DPWrite.setValue r.2.id int_value])
  else
    (dps, [])

/-- The registrar `async_setup_entry`, as a function of the device's
category, product id and datapoint collection: the list of bindings for
which a `TuyaBLESelect` entity is created (one entity per kept binding). -/
def async_setup_entry (category product_id : String) (dps : Datapoints) :
    List TuyaBLESelectMapping :=
  (get_mapping_by_device category product_id).filter
    (fun m => m.force_add || datapoints_has_id dps m.dp_id m.dp_type)

/-- The resolver contract in the spec's words, for comparison with
`get_mapping_by_device`: the product-specific list when the category is
known and has an entry for the product id; otherwise the category's
default list when the category defines one; otherwise the empty list. -/
def resolve_spec (category product_id : String) :
    List TuyaBLESelectMapping :=
  match dictGet mapping category with
  | none => []
  | some category_entry =>
    match (category_entry.products.bind (fun ps => dictGet ps product_id)) with
    | some product_mapping => product_mapping
    | none =>
      match category_entry.mapping with
      | some category_mapping => category_mapping
      | none => []

/-- All bindings appearing anywhere in the static `mapping` table: the
bindings of every product list and of every category-default list. -/
def allBindings : List TuyaBLESelectMapping :=
  mapping.flatMap (fun e =>
    (match e.2.products with
     | some ps => ps.flatMap (fun p => p.2)
     | none => []) ++
    (match e.2.mapping with
     | some m => m
     | none => []))

/-- A successful `dictGet` returns one of the dictionary's values. -/
lemma dictGet_mem {α : Type} {l : List (String × α)} {key : String} {v : α}
    (h : dictGet l key = some v) : v ∈ l.map Prod.snd := by
  induction l with
  | nil => simp [dictGet] at h
  | cons hd tl ih =>
    obtain ⟨k, w⟩ := hd
    simp only [dictGet] at h
    by_cases hk : key = k
    · rw [if_pos hk] at h
      simp only [Option.some.injEq] at h
      simp [h]
    · rw [if_neg hk] at h
      simp [ih h]

/-- Claim C1: the resolver returns the product-specific list when the
category is known and has an entry for the product id, otherwise the
category default when one is defined, otherwise the empty list — and it
always returns a list (it is total).  Stated as equality with the
resolution rule written in the spec's words. -/
theorem get_mapping_by_device_matches_spec (category product_id : String) :
    get_mapping_by_device category product_id =
      resolve_spec category product_id := by
  unfold get_mapping_by_device resolve_spec
  cases hc : dictGet mapping category with
  | none => rfl
  | some category_entry =>
    have hmem := dictGet_mem hc
    simp only [mapping, List.map_cons, List.map_nil, List.mem_cons,
      List.not_mem_nil, or_false] at hmem
    rcases hmem with h | h | h | h | h <;> subst h <;> rfl

/-- Claim C6: when the bound datapoint is absent from the device's
collection, `current_option` returns `none` rather than failing. -/
theorem current_option_absent_none (dps : Datapoints)
    (options : List String) (dp_id : Nat)
    (h : datapoints_get dps dp_id = none) :
    current_option dps options dp_id = none := by
  simp [current_option, h]

/-- Witness for C6 at a concrete input: the empty collection has no
datapoint 31, and `current_option` returns `none` there. -/
theorem current_option_absent_none_witness :
    datapoints_get [] 31 = none ∧
      current_option [] ["mute", "low", "normal", "high"] 31 = none :=
  ⟨rfl, current_option_absent_none [] ["mute", "low", "normal", "high"] 31 rfl⟩

/-- Claim C2 (code evaluation): with the four-option list and a present
datapoint holding the out-of-range raw value 9, `current_option` returns
the raw integer 9 unconverted (the `Sum.inr` outcome), which is not the
string "9" (the `Sum.inl` outcome) that the source's own
`-> str | None` annotation promises. -/
theorem current_option_out_of_range_returns_raw_int :
    current_option [⟨31, TuyaBLEDataPointType.DT_ENUM, 9⟩]
        ["mute", "low", "normal", "high"] 31 = some (Sum.inr 9) ∧
      (some (Sum.inr (9 : Int)) : Option (String ⊕ Int)) ≠
        some (Sum.inl "9") := by
  refine ⟨by decide, by simp⟩

/-- Claim C7: setup creates an entity for a resolved binding exactly when
the binding's `force_add` flag is true or the device's datapoint
collection reports a datapoint with the binding's id (and type, when the
binding specifies one). -/
theorem async_setup_entry_includes_iff (category product_id : String)
    (dps : Datapoints) (b : TuyaBLESelectMapping) :
    b ∈ async_setup_entry category product_id dps ↔
      b ∈ get_mapping_by_device category product_id ∧
        (b.force_add = true ∨
          datapoints_has_id dps b.dp_id b.dp_type = true) := by
  simp [async_setup_entry, List.mem_filter, Bool.or_eq_true]

/-- Claim C8: every binding anywhere in the static table has a
duplicate-free option list, so the list index is an unambiguous wire
encoding of each option. -/
theorem allBindings_options_nodup :
    ∀ b ∈ allBindings, b.description.options.Nodup := by decide

/-- Witness for C8 at a concrete binding of the table (the `ms` category's
beep-volume binding). -/
theorem allBindings_options_nodup_witness :
    ({ dp_id := 31
       description :=
         { key := "beep_volume"
           options := ["mute", "low", "normal", "high"]
           entity_category := some EntityCategory.CONFIG } } :
      TuyaBLESelectMapping) ∈ allBindings ∧
      (["mute", "low", "normal", "high"] : List String).Nodup :=
  ⟨by decide,
    allBindings_options_nodup
      { dp_id := 31
        description :=
          { key := "beep_volume"
            options := ["mute", "low", "normal", "high"]
            entity_category := some EntityCategory.CONFIG } }
      (by decide)⟩

/-- Membership puts `List.indexOf` strictly below the length. -/
lemma indexOf_lt_length_of_mem {l : List String} {a : String}
    (h : a ∈ l) : l.indexOf a < l.length := by
  induction l with
  | nil => simp at h
  | cons x xs ih =>
    rw [List.indexOf_cons]
    by_cases hxy : x = a
    · subst hxy
      simp
    · have hmem : a ∈ xs := by
        rcases List.mem_cons.mp h with h1 | h1
        · exact absurd h1.symm hxy
        · exact h1
      have hbeq : (x == a) = false := beq_eq_false_iff_ne.mpr hxy
      simp only [hbeq, cond_false, List.length_cons]
      exact Nat.succ_lt_succ (ih hmem)

/-- The element at the index found by `List.indexOf` is the sought one. -/
lemma getElem_indexOf_of_mem {l : List String} {a : String}
    (h : a ∈ l) (hlt : l.indexOf a < l.length) :
    l[l.indexOf a] = a := by
  induction l with
  | nil => simp at h
  | cons x xs ih =>
    by_cases hxy : x = a
    · simp [List.indexOf_cons, hxy]
    · have hmem : a ∈ xs := by
        rcases List.mem_cons.mp h with h1 | h1
        · exact absurd h1.symm hxy
        · exact h1
      have hlt' : xs.indexOf a < xs.length := indexOf_lt_length_of_mem hmem
      have hbeq : (x == a) = false := beq_eq_false_iff_ne.mpr hxy
      simp only [List.indexOf_cons, hbeq, cond_false, List.getElem_cons_succ]
      exact ih hmem hlt'

/-- The datapoint returned by `get_or_create` carries the requested id. -/
lemma datapoints_get_or_create_id (dps : Datapoints) (dp_id : Nat)
    (dp_type : TuyaBLEDataPointType) (default : Int) :
    (datapoints_get_or_create dps dp_id dp_type default).2.id = dp_id := by
  unfold datapoints_get_or_create
  cases hfind : datapoints_get dps dp_id with
  | some dp =>
    have hp := List.find?_some hfind
    simpa using hp
  | none => rfl

/-- In-range read of `current_option`: a present datapoint whose value is
the natural number `n` below the option count yields the option at
index `n`. -/
lemma current_option_eq_get (dps : Datapoints) (options : List String)
    (dp_id : Nat) (dp : TuyaBLEDataPoint) (n : Nat)
    (hget : datapoints_get dps dp_id = some dp)
    (hn : n < options.length) (hv : dp.value = (n : Int)) :
    current_option dps options dp_id =
      some (Sum.inl (options.get ⟨n, hn⟩)) := by
  have h0 : 0 ≤ dp.value := by omega
  have h1 : dp.value < (options.length : Int) := by omega
  have htn : dp.value.toNat = n := by omega
  simp only [current_option, hget]
  rw [dif_pos ⟨h0, h1⟩]
  congr 1
  congr 1
  exact congrArg options.get (Fin.ext htn)

/-- Claim C3: a present datapoint whose raw value is a valid index into
the option list makes `current_option` return the option string at that
index. -/
theorem current_option_in_range (dps : Datapoints) (options : List String)
    (dp_id : Nat) (dp : TuyaBLEDataPoint) (s : String)
    (hget : datapoints_get dps dp_id = some dp)
    (hnonneg : 0 ≤ dp.value)
    (hlt : dp.value < (options.length : Int))
    (hs : options.get? dp.value.toNat = some s) :
    current_option dps options dp_id = some (Sum.inl s) := by
  have hn : dp.value.toNat < options.length := by omega
  have hv : dp.value = (dp.value.toNat : Int) := by omega
  have hsg : options.get ⟨dp.value.toNat, hn⟩ = s := by
    have := List.get?_eq_get hn
    rw [this] at hs
    exact Option.some.injEq _ _ ▸ hs
  rw [current_option_eq_get dps options dp_id dp dp.value.toNat hget hn hv, hsg]

/-- Witness for C3 at the spec's example: option list
`["mute","low","normal","high"]` and raw value 2 yield "normal". -/
theorem current_option_in_range_witness :
    datapoints_get [⟨31, TuyaBLEDataPointType.DT_ENUM, 2⟩] 31 =
        some ⟨31, TuyaBLEDataPointType.DT_ENUM, 2⟩ ∧
      current_option [⟨31, TuyaBLEDataPointType.DT_ENUM, 2⟩]
        ["mute", "low", "normal", "high"] 31 = some (Sum.inl "normal") :=
  ⟨rfl,
    current_option_in_range [⟨31, TuyaBLEDataPointType.DT_ENUM, 2⟩]
      ["mute", "low", "normal", "high"] 31
      ⟨31, TuyaBLEDataPointType.DT_ENUM, 2⟩ "normal"
      rfl (by decide) (by decide) rfl⟩

/-- Claim C4: when the chosen value is a member of the option list,
`select_option` issues exactly one `set_value` write of the value's
index to the bound datapoint id, and the collection is the one produced
by the `get_or_create` call typed `DT_ENUM` with that index. -/
theorem select_option_valid_writes_index (dps : Datapoints)
    (options : List String) (dp_id : Nat) (value : String)
    (h : value ∈ options) :
    (select_option dps options dp_id value).2 =
      [DPWrite.setValue dp_id ((options.indexOf value : Nat) : Int)] ∧
      (select_option dps options dp_id value).1 =
        (datapoints_get_or_create dps dp_id TuyaBLEDataPointType.DT_ENUM
          ((options.indexOf value : Nat) : Int)).1 := by
  have hid := datapoints_get_or_create_id dps dp_id
    TuyaBLEDataPointType.DT_ENUM ((options.indexOf value : Nat) : Int)
  simp [select_option, h, hid]

/-- Witness for C4 at the spec's example: `select_option "low"` on the
four-option list writes integer 1 to datapoint 31. -/
theorem select_option_valid_writes_index_witness :
    ("low" ∈ (["mute", "low", "normal", "high"] : List String)) ∧
      (select_option [] ["mute", "low", "normal", "high"] 31 "low").2 =
        [DPWrite.setValue 31 1] ∧
      (select_option [] ["mute", "low", "normal", "high"] 31 "low").1 =
        (datapoints_get_or_create [] 31 TuyaBLEDataPointType.DT_ENUM 1).1 :=
  ⟨by decide,
    select_option_valid_writes_index [] ["mute", "low", "normal", "high"]
      31 "low" (by decide)⟩

/-- Claim C5: when the chosen value is not a member of the option list,
`select_option` performs no write and leaves the collection unchanged
(and, being total, raises nothing). -/
theorem select_option_invalid_noop (dps : Datapoints)
    (options : List String) (dp_id : Nat) (value : String)
    (h : value ∉ options) :
    select_option dps options dp_id value = (dps, []) := by
  simp [select_option, h]

/-- Witness for C5 at the spec's example: `select_option "unknown"` on the
four-option list is a silent no-op. -/
theorem select_option_invalid_noop_witness :
    ("unknown" ∉ (["mute", "low", "normal", "high"] : List String)) ∧
      select_option [⟨31, TuyaBLEDataPointType.DT_ENUM, 2⟩]
          ["mute", "low", "normal", "high"] 31 "unknown" =
        ([⟨31, TuyaBLEDataPointType.DT_ENUM, 2⟩], []) :=
  ⟨by decide,
    select_option_invalid_noop [⟨31, TuyaBLEDataPointType.DT_ENUM, 2⟩]
      ["mute", "low", "normal", "high"] 31 "unknown" (by decide)⟩

/-- Claim C9: read-after-write round trip — if `select_option` on a valid
value issued its write of `w` to the bound datapoint, and the collection
later holds that datapoint with cached value `w`, then `current_option`
returns exactly the selected value. -/
theorem select_option_round_trip (dps dps' : Datapoints)
    (options : List String) (dp_id : Nat) (value : String)
    (dp : TuyaBLEDataPoint) (w : Int)
    (hmem : value ∈ options)
    (hwrite : (select_option dps options dp_id value).2 =
      [DPWrite.setValue dp_id w])
    (hget : datapoints_get dps' dp_id = some dp)
    (hval : dp.value = w) :
    current_option dps' options dp_id = some (Sum.inl value) := by
  have hid := datapoints_get_or_create_id dps dp_id
    TuyaBLEDataPointType.DT_ENUM ((options.indexOf value : Nat) : Int)
  simp only [select_option, if_pos hmem] at hwrite
  rw [hid] at hwrite
  simp only [List.cons.injEq, DPWrite.setValue.injEq, and_true,
    true_and] at hwrite
  have hw : ((options.indexOf value : Nat) : Int) = w := hwrite
  have hlt : options.indexOf value < options.length :=
    indexOf_lt_length_of_mem hmem
  have hv : dp.value = ((options.indexOf value : Nat) : Int) := by
    rw [hval, ← hw]
  have hco := current_option_eq_get dps' options dp_id dp
    (options.indexOf value) hget hlt hv
  have hgv : options.get ⟨options.indexOf value, hlt⟩ = value := by
    rw [List.get_eq_getElem]
    exact getElem_indexOf_of_mem hmem hlt
  rw [hco, hgv]

/-- Witness for C9 at a concrete input: selecting "low" writes 1, and a
collection caching value 1 at datapoint 31 reads back as "low". -/
theorem select_option_round_trip_witness :
    ("low" ∈ (["mute", "low", "normal", "high"] : List String)) ∧
      (select_option [] ["mute", "low", "normal", "high"] 31 "low").2 =
        [DPWrite.setValue 31 1] ∧
      current_option [⟨31, TuyaBLEDataPointType.DT_ENUM, 1⟩]
        ["mute", "low", "normal", "high"] 31 = some (Sum.inl "low") :=
  ⟨by decide, by decide,
    select_option_round_trip [] [⟨31, TuyaBLEDataPointType.DT_ENUM, 1⟩]
      ["mute", "low", "normal", "high"] 31 "low"
      ⟨31, TuyaBLEDataPointType.DT_ENUM, 1⟩ 1
      (by decide) (by decide) rfl rfl⟩

/-- Every binding of the static table has `force_add` left at its
default of `true`. -/
lemma allBindings_force_add : ∀ b ∈ allBindings, b.force_add = true := by
  decide

/-- Every binding the resolver can return lives in the static table. -/
lemma resolve_mem_allBindings {category product_id : String}
    {b : TuyaBLESelectMapping}
    (hb : b ∈ get_mapping_by_device category product_id) :
    b ∈ allBindings := by
  unfold get_mapping_by_device at hb
  split at hb
  · rename_i category_entry hc
    split at hb
    · rename_i products hps
      split at hb
      · rename_i pm hpm
        obtain ⟨e, he, hesnd⟩ := List.mem_map.mp (dictGet_mem hc)
        obtain ⟨pe, hpe, hpesnd⟩ := List.mem_map.mp (dictGet_mem hpm)
        refine List.mem_flatMap.mpr ⟨e, he, ?_⟩
        apply List.mem_append_left
        rw [hesnd, hps]
        exact List.mem_flatMap.mpr ⟨pe, hpe, by rw [hpesnd]; exact hb⟩
      · rename_i hpm
        split at hb
        · rename_i cm hcm
          obtain ⟨e, he, hesnd⟩ := List.mem_map.mp (dictGet_mem hc)
          refine List.mem_flatMap.mpr ⟨e, he, ?_⟩
          apply List.mem_append_right
          rw [hesnd, hcm]
          exact hb
        · simp at hb
    · simp at hb
  · simp at hb

/-- Claim C10: every binding in the shipped table keeps the `force_add`
default of `true`, so setup registers an entity for every resolved
binding of any device, regardless of which datapoints it reports. -/
theorem mapping_force_add_always_registers :
    (∀ b ∈ allBindings, b.force_add = true) ∧
      ∀ (category product_id : String) (dps : Datapoints),
        async_setup_entry category product_id dps =
          get_mapping_by_device category product_id := by
  constructor
  · exact allBindings_force_add
  · intro category product_id dps
    unfold async_setup_entry
    apply List.filter_eq_self.mpr
    intro b hb
    have hfa : b.force_add = true :=
      allBindings_force_add b (resolve_mem_allBindings hb)
    simp [hfa]

/-- Witness for C10 at a concrete input: a fingerbot binding has
`force_add = true`, and setup on a device reporting no datapoints still
registers every resolved binding of the `szjqr`/`3yqdo5yt` device. -/
theorem mapping_force_add_always_registers_witness :
    (TuyaBLEFingerbotModeMapping 2).force_add = true ∧
      async_setup_entry "szjqr" "3yqdo5yt" [] =
        get_mapping_by_device "szjqr" "3yqdo5yt" :=
  ⟨mapping_force_add_always_registers.1 (TuyaBLEFingerbotModeMapping 2)
      (by decide),
    mapping_force_add_always_registers.2 "szjqr" "3yqdo5yt" []⟩
